import Mathlib

/-!
Thermostat reader daemon.

A shallow embedding of `src/thermostat_reader.c` and the properties of its
sync loop, daemon start-up, signal handler and command line.

The C program talks to four things outside itself: the file system (two files
under `/tmp`), libcurl, the process API (`fork`, `setsid`, `chdir`, `exit`)
and the system log.  The embedding makes each of them explicit:

* `World` holds the two files, the global `chunk` accumulator and the list of
  externally visible actions performed so far (`trace`);
* every answer the outside world gives (`fork` result, whether `realloc`
  succeeds, what the server sends, ...) is an argument of the function that
  asks for it;
* a C function that may stop the process returns a `Ctl` value next to the
  new world: it returns normally, calls `exit`, dereferences an invalid
  pointer, or is still inside `while (true)` when the supplied iterations
  are used up.

Bytes are natural numbers; the NUL byte is `0`.
-/

namespace Thermostat

/-! ## Constants of the program -/

/-- One `char` of C memory. -/
abbrev Byte := Nat

/-- The bytes of a C string literal, without the terminating NUL. -/
def bytes (s : String) : List Byte := s.toList.map Char.toNat

def STATE_URL : String := "http://13.57.204.147:8080/state"
def TEMP_URL : String := "http://13.57.204.147:8080/temp"
def UPDATE : String := "http://13.57.204.147:8080/update"
def TEMP_FILENAME : String := "/tmp/temp"
def STATE_FILENAME : String := "/tmp/status"
def CURL_OUTPUT : String := "out.txt"
def GET : String := "GET"
def DELAY : Nat := 3

def OK : Nat := 0
def ERR_SETSID : Nat := 1
def SIGTERM : Int := 2
def SIGHUP : Int := 3
def ERR_FORK : Nat := 4
def ERR_CHDIR : Nat := 5
def WRONG_EXIT : Nat := 6
def INIT_ERR : Nat := 7
def REQ_ERR : Nat := 8
def NO_FILE : Nat := 19
def DAEMON_NAME : String := "Thermostat Reader Daemon"

/-- The number of values of a `size_t` (64-bit target). -/
def SIZE_MOD : Nat := 2 ^ 64

/-! ## Data model -/

/-- A value of type `char *`: the null pointer, an integer that was converted
to a pointer and points to no object (`return REQ_ERR;`), or a pointer to the
start of an allocated block with the given contents. -/
inductive CharPtr
  | null
  | addr (a : Nat)
  | block (mem : List Byte)
  deriving DecidableEq, Repr

/-- The C struct `curl_string`: `response` is `none` for `NULL`, otherwise the
contents of the heap block it points to. -/
structure curl_string where
  response : Option (List Byte)
  size : Nat
  deriving DecidableEq, Repr

/-- The initial value `struct curl_string chunk = {0}`, and the value
`_handle_state_get` resets it to. -/
def chunk0 : curl_string := { response := none, size := 0 }

inductive Level
  | LOG_INFO
  | LOG_ERR
  deriving DecidableEq, Repr

/-- An externally visible action of the process. -/
inductive Event
  | openlog (ident : String)
  | syslog (level : Level) (msg : String)
  | syslog_strerror (level : Level) (errnum : Int)
  | closelog
  | fork
  | setsid
  | close (fd : Nat)
  | umask (mask : Nat)
  | chdir (path : String)
  | signal (signum : Int)
  | stat (path : String)
  | fopen (path : String) (mode : String)
  | perform (url : String) (method : String) (postfields : Option (List Byte))
      (followlocation : Bool)
  | printf (text : String)
  | sleep (seconds : Nat)
  deriving DecidableEq, Repr

/-- The process forks, creates a session or installs a signal handler. -/
def Event.isDaemon : Event → Bool
  | .fork => true
  | .setsid => true
  | .signal _ => true
  | _ => false

/-- The process checks for, or opens, a local file. -/
def Event.isFile : Event → Bool
  | .stat _ => true
  | .fopen _ _ => true
  | _ => false

/-- The process performs an HTTP request. -/
def Event.isNetwork : Event → Bool
  | .perform _ _ _ _ => true
  | _ => false

/-- Everything the program can observe or change. -/
structure World where
  temp : Option (List Byte)
  status : Option (List Byte)
  chunk : curl_string
  trace : List Event
  deriving DecidableEq, Repr

def World.emit (w : World) (e : Event) : World := { w with trace := w.trace ++ [e] }

/-- The file found at a path; only the two files under `/tmp` are modelled. -/
def World.file (w : World) (path : String) : Option (List Byte) :=
  if path = TEMP_FILENAME then w.temp
  else if path = STATE_FILENAME then w.status
  else none

/-- How a C function hands control back. -/
inductive Ctl (α : Type)
  | ret (v : α)
  | exit (code : Nat)
  | fault
  | running
  deriving DecidableEq, Repr

/-- Sequencing of C statements: the continuation runs only after a normal return. -/
def Ctl.seq {α β : Type} (r : Ctl α × World) (k : α → World → Ctl β × World) :
    Ctl β × World :=
  match r.1 with
  | .ret v => k v r.2
  | .exit c => (.exit c, r.2)
  | .fault => (.fault, r.2)
  | .running => (.running, r.2)

/-! ## C library -/

/-- The string a `char *` block is read as: the bytes before the first NUL. -/
def cstring (mem : List Byte) : List Byte := mem.takeWhile (fun b => b ≠ 0)

/-- The string a pointer points to, when it points to a NUL-terminated one. -/
def cstr (p : CharPtr) : Option (List Byte) :=
  match p with
  | .null => none
  | .addr _ => none
  | .block mem => if (0 : Byte) ∈ mem then some (cstring mem) else none

/-- The test `strcmp(p, lit) == 0`; `none` is a read through a pointer that
points to no string. -/
def strcmp0 (p : CharPtr) (lit : List Byte) : Option Bool :=
  (cstr p).map fun s => decide (s = lit)

/-- Allocation of `n` bytes keeping the old contents; fresh bytes are
indeterminate in C and are zero here.  `ok = false` is an allocation failure. -/
def realloc (ok : Bool) (p : Option (List Byte)) (n : Nat) : Option (List Byte) :=
  if ok then some ((p.getD []).take n ++ List.replicate (n - (p.getD []).length) 0) else none

def malloc (ok : Bool) (n : Nat) : Option (List Byte) := realloc ok none n

/-- Copy of the first `n` bytes of `src` to offset `off` of the block `dst`.
(A store past the end of the block is undefined in C and is dropped here.) -/
def memcpy (dst : List Byte) (off : Nat) (src : List Byte) (n : Nat) : List Byte :=
  (dst.take off ++ src.take n ++ dst.drop (off + n)).take dst.length

/-! ## The program -/

def _signal_handler (signal : Int) (w : World) : Ctl Unit × World :=
  if signal = SIGHUP then (.ret (), w)
  else if signal = SIGTERM then
    (.exit OK, (w.emit (.syslog .LOG_INFO "SIGTERM, program shutting down")).emit .closelog)
  else (.ret (), w.emit (.syslog .LOG_INFO "unspecified signal handler type"))

/-- The write callback; `data` is the memory at the pointer libcurl passes. -/
def _write_fn (reallocOk : Bool) (data : List Byte) (size nmemb : Nat) (mem : curl_string) :
    Nat × curl_string :=
  let realsize := (size * nmemb) % SIZE_MOD
  match realloc reallocOk mem.response ((mem.size + realsize + 1) % SIZE_MOD) with
  | none => (0, mem)
  | some ptr =>
    let copied := memcpy ptr mem.size data realsize
    let size' := (mem.size + realsize) % SIZE_MOD
    (realsize, { response := some (copied.set size' 0), size := size' })

/-- What the outside world does with one HTTP request: whether
`curl_easy_init` yields a handle, the pieces of the response body in arrival
order (each with the outcome of the `realloc` made while it is stored), and
whether the transfer itself completes. -/
structure Transfer where
  init : Bool
  data : List (List Byte × Bool)
  ok : Bool
  deriving DecidableEq, Repr

/-- libcurl hands each piece to the write callback as `(ptr, 1, length)` and
aborts the transfer when the callback returns another count. -/
def deliver : List (List Byte × Bool) → curl_string → Bool × curl_string
  | [], c => (true, c)
  | (d, ra) :: rest, c =>
    let r := _write_fn ra d 1 d.length c
    if r.1 = d.length then deliver rest r.2 else (false, r.2)

/-- The call `curl_easy_perform`; the result is `true` for `CURLE_OK`.  With the
default write callback the body goes to the output file and `chunk` is not
touched. -/
def curl_easy_perform (toChunk : Bool) (t : Transfer) (c : curl_string) : Bool × curl_string :=
  if toChunk then
    let r := deliver t.data c
    (r.1 && t.ok, r.2)
  else (t.ok, c)

def CharPtr.ofHeap : Option (List Byte) → CharPtr
  | none => .null
  | some mem => .block mem

/-- `CURLOPT_POSTFIELDS` is given a pointer only (no `CURLOPT_POSTFIELDSIZE`),
so the request body is the string found there. -/
def _send_request (url : String) (message : Option (List Byte)) (type : String) (verb : Bool)
    (t : Transfer) (w : World) : CharPtr × World :=
  if t.init then
    let w1 := w.emit (.fopen CURL_OUTPUT "wb")
    let w2 := w1.emit (.perform url type (if verb then message.map cstring else none) (!verb))
    let r := curl_easy_perform (type == GET) t w2.chunk
    let w3 := { w2 with chunk := r.2 }
    if !r.1 then (.addr REQ_ERR, w3)
    else (CharPtr.ofHeap w3.chunk.response, w3)
  else (.null, w)

/-- The results of the system calls made during start-up. -/
structure Startup where
  fork : Int
  setsid : Int
  chdir : Int
  deriving DecidableEq, Repr

def _daemonize (s : Startup) (w : World) : Ctl Nat × World :=
  let w := w.emit (.openlog DAEMON_NAME)
  let w := w.emit (.syslog .LOG_INFO "Staring IoT client final daemon")
  let w := w.emit .fork
  let pid := s.fork
  if pid < 0 then (.ret ERR_FORK, w.emit (.syslog_strerror .LOG_ERR pid))
  else if pid > 0 then (.exit OK, w)
  else
    let w := w.emit .setsid
    if s.setsid < -1 then (.ret ERR_SETSID, w.emit (.syslog_strerror .LOG_ERR pid))
    else
      let w := ((w.emit (.close 0)).emit (.close 1)).emit (.close 2)
      let w := w.emit (.umask 0o644)
      let w := w.emit (.chdir "/")
      if s.chdir < 0 then (.ret ERR_CHDIR, w.emit (.syslog_strerror .LOG_ERR pid))
      else
        let w := (w.emit (.signal SIGTERM)).emit (.signal SIGHUP)
        (.ret OK, w)

def _file_exists (filename : String) (w : World) : Bool × World :=
  ((w.file filename).isSome, w.emit (.stat filename))

/-- A missing file makes `fopen` return `NULL`, which `fseek` dereferences; a
failed `malloc` returns `NULL`, which `buffer[size] = 0` stores through.
(`size` is a file length, far below `SIZE_MOD`.) -/
def _read_temp (alloc : Bool) (t : Transfer) (w : World) : Ctl Unit × World :=
  let w1 := w.emit (.fopen TEMP_FILENAME "r")
  match w1.file TEMP_FILENAME with
  | none => (.fault, w1)
  | some content =>
    let size := content.length
    match malloc alloc (size + 1) with
    | none => (.fault, w1)
    | some buffer =>
      let buffer := memcpy buffer 0 content size
      let buffer := buffer.set size 0
      (.ret (), (_send_request UPDATE (some buffer) "POST" true t w1).2)

/-- The parameter `opens` tells whether `fopen(STATE_FILENAME, "w")` succeeds. -/
def _write_state (state : List Byte) (opens : Bool) (w : World) : Nat × World :=
  let w1 := w.emit (.fopen STATE_FILENAME "w")
  if !opens then (WRONG_EXIT, w1.emit (.printf "unable to open file for writing\n"))
  else (OK, { w1 with status := some state })

def _handle_state_get (g : Transfer) (opens : Bool) (w : World) : Ctl Unit × World :=
  let r := _send_request STATE_URL none GET false g w
  let state := r.1
  match strcmp0 state (bytes "true") with
  | none => (.fault, r.2)
  | some true =>
    let w1 := (_write_state (bytes "ON") opens
      (r.2.emit (.syslog .LOG_INFO "turning on heater"))).2
    (.ret (), { w1 with chunk := { response := none, size := 0 } })
  | some false =>
    match strcmp0 state (bytes "false") with
    | none => (.fault, r.2)
    | some true =>
      let w1 := (_write_state (bytes "OFF") opens
        (r.2.emit (.syslog .LOG_INFO "turning off heater"))).2
      (.ret (), { w1 with chunk := { response := none, size := 0 } })
    | some false => (.ret (), { r.2 with chunk := { response := none, size := 0 } })

/-- The answers of the outside world during one pass of the loop. -/
structure Iter where
  alloc : Bool
  post : Transfer
  get : Transfer
  opens : Bool
  deriving DecidableEq, Repr

/-- The body of `while (true)` in `_handle_work`. -/
def iteration (it : Iter) (w : World) : Ctl Unit × World :=
  Ctl.seq (_read_temp it.alloc it.post w) fun _ w1 =>
  Ctl.seq (_handle_state_get it.get it.opens w1) fun _ w2 =>
  (.ret (), w2.emit (.sleep DELAY))

/-- The loop `while (true)` of `_handle_work`, run for the passes whose
answers are supplied; `Ctl.running` says the loop is still going after them. -/
def sync_loop : List Iter → World → Ctl Nat × World
  | [], w => (.running, w)
  | it :: rest, w => Ctl.seq (iteration it w) fun _ w1 => sync_loop rest w1

def _handle_work (iters : List Iter) (w : World) : Ctl Nat × World :=
  let a := _file_exists TEMP_FILENAME w
  if !a.1 then (.ret NO_FILE, a.2.emit (.syslog .LOG_ERR "No temp or state files to read/write."))
  else
    let b := _file_exists STATE_FILENAME a.2
    if !b.1 then
      (.ret NO_FILE, b.2.emit (.syslog .LOG_ERR "No temp or state files to read/write."))
    else
      Ctl.seq (sync_loop iters b.2) fun _ w1 => (.ret WRONG_EXIT, w1)

def usage1 : String := "Help\nUsage:\n\t./iot_projd -h or iot_projd --help Displays help,\n"

def usage2 : String :=
  "./iot_projd Runs daemon program that comunicates with a cloud database (still having trouble parsing JSON files) to turn heater on/off\n"

def _help (w : World) : World := (w.emit (.printf usage1)).emit (.printf usage2)

/-- The test inside the `for` loop of `main`. -/
def isHelpArg (a : List Byte) : Bool := decide (a = bytes "-h") || decide (a = bytes "--help")

/-- The entry point; `argv` lists the argument strings, program name first, and
`Ctl.ret v` is the process ending with exit status `v`. -/
def main (argv : List (List Byte)) (s : Startup) (iters : List Iter) (w : World) :
    Ctl Nat × World :=
  if argv.length = 1 then
    let w1 := w.emit (.syslog .LOG_INFO "Running the daemon\n")
    Ctl.seq (_daemonize s w1) fun _ w2 =>
    Ctl.seq (_handle_work iters w2) fun _ w3 =>
    (.ret WRONG_EXIT, w3)
  else if argv.length > 1 then
    let w1 := w.emit (.syslog .LOG_INFO "Checking arguments\n")
    (.ret WRONG_EXIT, argv.tail.foldl (fun w a => if isHelpArg a then _help w else w) w1)
  else (.ret WRONG_EXIT, w)

/-! ## Reference values used in the statements below -/

/-- The bytes accumulated so far: the first `size` bytes of the block. -/
def curl_string.content (c : curl_string) : List Byte := (c.response.getD []).take c.size

/-- All the bytes of the pieces of a response, in arrival order. -/
def received : List (List Byte × Bool) → List Byte
  | [] => []
  | (d, _) :: rest => d ++ received rest

/-- The accumulator after all the pieces of `data` were stored in `c`. -/
def stored (c : curl_string) (data : List (List Byte × Bool)) : curl_string :=
  match data with
  | [] => c
  | _ :: _ => { response := some (c.content ++ received data ++ [0]),
                size := c.size + (received data).length }

/-- The heater-state file after the classification of the string `t`. -/
def classify (t : Option (List Byte)) (opens : Bool) (st : Option (List Byte)) :
    Option (List Byte) :=
  if t = some (bytes "true") then (if opens then some (bytes "ON") else st)
  else if t = some (bytes "false") then (if opens then some (bytes "OFF") else st)
  else st

/-- The text the argument loop of `main` prints for the given arguments. -/
def helpOutput : List (List Byte) → List Event
  | [] => []
  | a :: rest =>
    (if isHelpArg a then [Event.printf usage1, Event.printf usage2] else []) ++ helpOutput rest

/-- A transfer that succeeds and delivers the given pieces. -/
def goodTransfer (pieces : List (List Byte)) : Transfer :=
  { init := true, data := pieces.map (fun d => (d, true)), ok := true }

/-- A world with no files, an empty accumulator and no action performed. -/
def blankWorld : World := { temp := none, status := none, chunk := chunk0, trace := [] }

def sampleWorld : World :=
  { temp := some (bytes "21.5\n"), status := some (bytes "OFF"), chunk := chunk0, trace := [] }

def sampleIter : Iter :=
  { alloc := true, post := goodTransfer [], get := goodTransfer [bytes "tr", bytes "ue"],
    opens := true }

/-- A pass in which the state request answers `false`. -/
def falseIter : Iter :=
  { alloc := true, post := goodTransfer [], get := goodTransfer [bytes "false"], opens := true }

/-- A successful state transfer whose body is `"true"`, a zero byte and `"x"`. -/
def nulTransfer : Transfer := goodTransfer [bytes "true", [0, 120]]

/-! ## Memory and strings -/

theorem memcpy_in_bounds (dst : List Byte) (off : Nat) (src : List Byte) (n : Nat)
    (h1 : off + n ≤ dst.length) (h2 : n ≤ src.length) :
    memcpy dst off src n = dst.take off ++ src.take n ++ dst.drop (off + n) := by
  unfold memcpy
  apply List.take_of_length_le
  simp only [List.length_append, List.length_take, List.length_drop]
  omega

/-- Storing `n` bytes at offset `off` and a NUL right behind them, in a block of
exactly `off + n + 1` bytes. -/
theorem store_terminated (ptr : List Byte) (off : Nat) (src : List Byte) (n : Nat)
    (h1 : ptr.length = off + n + 1) (h2 : n ≤ src.length) :
    (memcpy ptr off src n).set (off + n) 0 = ptr.take off ++ src.take n ++ [0] := by
  rw [memcpy_in_bounds ptr off src n (by omega) h2]
  have hl : (ptr.take off ++ src.take n).length = off + n := by
    simp only [List.length_append, List.length_take]
    omega
  obtain ⟨x, hx⟩ : ∃ x, ptr.drop (off + n) = [x] := by
    have : (ptr.drop (off + n)).length = 1 := by
      simp only [List.length_drop]
      omega
    match hd : ptr.drop (off + n), this with
    | [x], _ => exact ⟨x, rfl⟩
  rw [hx]
  conv_lhs => rw [← hl]
  simp

theorem cstring_terminated (b : List Byte) : cstring (b ++ [0]) = b.takeWhile (fun x => x ≠ 0) := by
  induction b with
  | nil => simp [cstring]
  | cons x rest ih =>
    unfold cstring at ih ⊢
    rw [List.cons_append, List.takeWhile_cons, List.takeWhile_cons, ih]

theorem takeWhile_no_nul (b : List Byte) (h : (0 : Byte) ∉ b) :
    b.takeWhile (fun x => x ≠ 0) = b := by
  induction b with
  | nil => rfl
  | cons x rest ih =>
    have hx : x ≠ 0 := fun hx => h (by simp [hx])
    have hr : (0 : Byte) ∉ rest := fun hr => h (List.mem_cons_of_mem _ hr)
    rw [List.takeWhile_cons, ih hr]
    simp [hx]

theorem read_temp_buffer (b : List Byte) :
    (memcpy ((List.replicate (b.length + 1) (0 : Byte))) 0 b b.length).set b.length 0 = b ++ [0] := by
  have := store_terminated (List.replicate (b.length + 1) (0 : Byte)) 0 b b.length (by simp) (le_refl _)
  simpa using this

theorem cstr_block_terminated (b : List Byte) :
    cstr (.block (b ++ [0])) = some (b.takeWhile (fun x => x ≠ 0)) := by
  simp [cstr, cstring_terminated]

/-! ## The write callback and the transfer -/

theorem write_fn_appends (data : List Byte) (size nmemb : Nat) (mem : curl_string)
    (hfit : mem.size + size * nmemb + 1 < SIZE_MOD)
    (hdata : size * nmemb ≤ data.length)
    (hmem : mem.size ≤ (mem.response.getD []).length) :
    _write_fn true data size nmemb mem =
      (size * nmemb,
        { response := some (mem.content ++ data.take (size * nmemb) ++ [0]),
          size := mem.size + size * nmemb }) := by
  have e1 : (size * nmemb) % SIZE_MOD = size * nmemb := Nat.mod_eq_of_lt (by omega)
  have e2 : (mem.size + size * nmemb + 1) % SIZE_MOD = mem.size + size * nmemb + 1 :=
    Nat.mod_eq_of_lt hfit
  have e3 : (mem.size + size * nmemb) % SIZE_MOD = mem.size + size * nmemb :=
    Nat.mod_eq_of_lt (by omega)
  generalize hrs : size * nmemb = rs at *
  generalize hold : mem.response.getD [] = old at *
  have hlen : (old.take (mem.size + rs + 1) ++
      List.replicate (mem.size + rs + 1 - old.length) (0 : Byte)).length = mem.size + rs + 1 := by
    simp only [List.length_append, List.length_take, List.length_replicate]
    omega
  have htake : (old.take (mem.size + rs + 1) ++
      List.replicate (mem.size + rs + 1 - old.length) (0 : Byte)).take mem.size
        = old.take mem.size := by
    rw [List.take_append_of_le_length (by simp only [List.length_take]; omega), List.take_take]
    congr 1
    omega
  simp only [_write_fn, hrs, e1, e2, e3, realloc, if_true, hold, curl_string.content,
    store_terminated _ _ _ _ hlen hdata, htake]

theorem deliver_all (data : List (List Byte × Bool)) (c : curl_string)
    (hok : ∀ p ∈ data, p.2 = true)
    (hmem : c.size ≤ (c.response.getD []).length)
    (hfit : c.size + (received data).length + 1 < SIZE_MOD) :
    deliver data c = (true, stored c data) := by
  induction data generalizing c with
  | nil => rfl
  | cons p rest ih =>
    obtain ⟨d, ra⟩ := p
    have hra : ra = true := hok (d, ra) (List.mem_cons_self _ _)
    subst hra
    have hfit2 : c.size + (d.length + (received rest).length) + 1 < SIZE_MOD := by
      simpa only [received, List.length_append] using hfit
    have hw := write_fn_appends d 1 d.length c (by omega) (by omega) hmem
    simp only [one_mul, List.take_length] at hw
    have hclen : c.content.length = c.size := by
      simp only [curl_string.content, List.length_take]
      omega
    have hlen1 : (c.content ++ d ++ [0]).length = c.size + d.length + 1 := by
      simp only [List.length_append, List.length_singleton, hclen]
    have hcont : ({ response := some (c.content ++ d ++ [0]), size := c.size + d.length } :
        curl_string).content = c.content ++ d := by
      show (c.content ++ d ++ [0]).take (c.size + d.length) = c.content ++ d
      rw [List.take_append_of_le_length (by simp only [List.length_append, hclen]; omega)]
      apply List.take_of_length_le
      simp only [List.length_append, hclen]
      omega
    simp only [deliver, hw, if_true]
    rw [ih _ (fun p hp => hok p (List.mem_cons_of_mem _ hp))
      (by show c.size + d.length ≤ (c.content ++ d ++ [0]).length; omega)
      (by show c.size + d.length + (received rest).length + 1 < SIZE_MOD; omega)]
    cases rest with
    | nil => simp [stored, received]
    | cons q rest' =>
      simp only [stored, hcont]
      simp only [received, List.length_append, List.append_assoc, Nat.add_assoc]

theorem stored_chunk0 (data : List (List Byte × Bool)) :
    CharPtr.ofHeap (stored chunk0 data).response =
      (if data = [] then CharPtr.null else CharPtr.block (received data ++ [0])) ∧
    (stored chunk0 data).content = received data ∧
    (stored chunk0 data).size = (received data).length := by
  cases data with
  | nil => exact ⟨rfl, rfl, rfl⟩
  | cons p rest =>
    refine ⟨?_, ?_, ?_⟩
    · simp [stored, CharPtr.ofHeap, chunk0, curl_string.content]
    · simp [stored, chunk0, curl_string.content]
    · simp [stored, chunk0]

theorem send_request_eq (url : String) (m : Option (List Byte)) (ty : String) (v : Bool)
    (t : Transfer) (w : World) :
    _send_request url m ty v t w =
      if t.init then
        (if (curl_easy_perform (ty == GET) t w.chunk).1 then
            CharPtr.ofHeap (curl_easy_perform (ty == GET) t w.chunk).2.response
          else .addr REQ_ERR,
         { w with
            chunk := (curl_easy_perform (ty == GET) t w.chunk).2
            trace := w.trace ++ [.fopen CURL_OUTPUT "wb",
              .perform url ty (if v then m.map cstring else none) (!v)] })
      else (.null, w) := by
  cases hi : t.init with
  | false => simp [_send_request, hi]
  | true =>
    cases hp : (curl_easy_perform (ty == GET) t w.chunk).1 <;>
      simp [_send_request, hi, World.emit, hp]

theorem send_request_frame (url : String) (m : Option (List Byte)) (ty : String) (v : Bool)
    (t : Transfer) (w : World) :
    (_send_request url m ty v t w).2.status = w.status ∧
    (_send_request url m ty v t w).2.temp = w.temp := by
  rw [send_request_eq]
  cases t.init <;> exact ⟨rfl, rfl⟩

theorem send_request_post_chunk (url : String) (m : Option (List Byte)) (v : Bool)
    (t : Transfer) (w : World) :
    (_send_request url m "POST" v t w).2.chunk = w.chunk := by
  have hg : ("POST" == GET) = false := by decide
  rw [send_request_eq, hg]
  cases t.init <;> rfl

theorem send_request_ptr_indep (url : String) (m : Option (List Byte)) (ty : String) (v : Bool)
    (t : Transfer) (w w' : World) (h : w.chunk = w'.chunk) :
    (_send_request url m ty v t w).1 = (_send_request url m ty v t w').1 := by
  rw [send_request_eq, send_request_eq, h]
  cases t.init <;> rfl

theorem send_request_get_ok (g : Transfer) (w : World) (hw : w.chunk = chunk0)
    (hinit : g.init = true) (hok : g.ok = true) (hre : ∀ p ∈ g.data, p.2 = true)
    (hfit : (received g.data).length + 1 < SIZE_MOD) :
    _send_request STATE_URL none GET false g w =
      (CharPtr.ofHeap (stored chunk0 g.data).response,
       { w with
          chunk := stored chunk0 g.data
          trace := w.trace ++ [.fopen CURL_OUTPUT "wb", .perform STATE_URL GET none true] }) := by
  have hg : (GET == GET) = true := by decide
  have hd : deliver g.data chunk0 = (true, stored chunk0 g.data) :=
    deliver_all g.data chunk0 hre (by simp [chunk0]) (by simpa [chunk0] using hfit)
  rw [send_request_eq, hinit, hw, hg]
  simp [curl_easy_perform, hd, hok]

/-! ## The temperature upload -/

theorem read_temp_frame (a : Bool) (t : Transfer) (w : World) :
    (_read_temp a t w).2.status = w.status ∧ (_read_temp a t w).2.temp = w.temp ∧
    (_read_temp a t w).2.chunk = w.chunk := by
  unfold _read_temp
  simp only []
  split
  · exact ⟨rfl, rfl, rfl⟩
  · split
    · exact ⟨rfl, rfl, rfl⟩
    · exact ⟨(send_request_frame _ _ _ _ _ _).1, (send_request_frame _ _ _ _ _ _).2,
        send_request_post_chunk _ _ _ _ _⟩

theorem read_temp_ctl (a : Bool) (t : Transfer) (w : World) :
    (_read_temp a t w).1 = .ret () ∨ (_read_temp a t w).1 = .fault := by
  unfold _read_temp
  simp only []
  split
  · exact Or.inr rfl
  · split
    · exact Or.inr rfl
    · exact Or.inl rfl

/-- C2 (as amended): when the temperature file holds the bytes `b`, the allocation succeeds
and a client handle is obtained, `_read_temp` performs exactly one request, a POST to the
update endpoint, whose body is the part of `b` before its first zero byte; for a `b` without
a zero byte (the empty sequence included) the body is exactly `b`. -/
theorem read_temp_post_body (w : World) (b : List Byte) (t : Transfer)
    (hb : w.temp = some b) (hi : t.init = true) :
    (_read_temp true t w).1 = .ret () ∧
    (_read_temp true t w).2.trace = w.trace ++
      [.fopen TEMP_FILENAME "r", .fopen CURL_OUTPUT "wb",
       .perform UPDATE "POST" (some (b.takeWhile (fun x => x ≠ 0))) false] ∧
    ((0 : Byte) ∉ b → (_read_temp true t w).2.trace = w.trace ++
      [.fopen TEMP_FILENAME "r", .fopen CURL_OUTPUT "wb", .perform UPDATE "POST" (some b) false]) := by
  have key : (_read_temp true t w).1 = .ret () ∧ (_read_temp true t w).2.trace = w.trace ++
      [.fopen TEMP_FILENAME "r", .fopen CURL_OUTPUT "wb",
       .perform UPDATE "POST" (some (b.takeWhile (fun x => x ≠ 0))) false] := by
    simp only [_read_temp, World.file, World.emit, if_true, hb, malloc, realloc, Option.getD_none,
      List.take_nil, List.nil_append, List.length_nil, Nat.sub_zero, read_temp_buffer,
      _send_request, hi, Option.map_some', cstring_terminated]
    constructor
    · trivial
    · split <;> simp
  refine ⟨key.1, key.2, ?_⟩
  intro h0
  rw [key.2, takeWhile_no_nul b h0]

/-- Instance of `read_temp_post_body`: the file `"21.5\n"` is posted byte for byte. -/
theorem read_temp_post_body_witness :
    (_read_temp true (goodTransfer []) sampleWorld).2.trace =
      [.fopen TEMP_FILENAME "r", .fopen CURL_OUTPUT "wb",
       .perform UPDATE "POST" (some (bytes "21.5\n")) false] :=
  ((read_temp_post_body sampleWorld (bytes "21.5\n") (goodTransfer []) rfl rfl).2.2
    (by decide)).trans (by decide)

/-- C2 (counterexample): with the bytes `[50, 0, 53]` in the temperature file the body of
the POST is `[50]`; the three bytes of the file are not what is sent. -/
theorem read_temp_truncates_at_nul :
    (_read_temp true (goodTransfer []) { sampleWorld with temp := some [50, 0, 53] }).2.trace =
      [.fopen TEMP_FILENAME "r", .fopen CURL_OUTPUT "wb",
       .perform UPDATE "POST" (some [50]) false] ∧
    Event.perform UPDATE "POST" (some [50, 0, 53]) false ∉
      (_read_temp true (goodTransfer []) { sampleWorld with temp := some [50, 0, 53] }).2.trace := by
  decide

/-! ## The state fetch -/

theorem handle_state_get_spec (g : Transfer) (opens : Bool) (w : World) :
    (_handle_state_get g opens w).2.status =
      classify (cstr (_send_request STATE_URL none GET false g w).1) opens w.status ∧
    (_handle_state_get g opens w).2.temp = w.temp ∧
    ((_handle_state_get g opens w).1 = .ret () ∨ (_handle_state_get g opens w).1 = .fault) ∧
    ((_handle_state_get g opens w).1 = .ret () → (_handle_state_get g opens w).2.chunk = chunk0) ∧
    (cstr (_send_request STATE_URL none GET false g w).1 ≠ none →
      (_handle_state_get g opens w).1 = .ret ()) := by
  have hs := (send_request_frame STATE_URL none GET false g w).1
  have ht := (send_request_frame STATE_URL none GET false g w).2
  unfold _handle_state_get
  simp only [strcmp0]
  cases hc : cstr (_send_request STATE_URL none GET false g w).1 with
  | none =>
    simp only [Option.map_none', classify, hs, ht]
    simp
  | some s =>
    have hne : bytes "true" ≠ bytes "false" := by decide
    by_cases h1 : s = bytes "true"
    · subst h1
      cases opens <;>
        simp [classify, _write_state, World.emit, hs, ht, chunk0]
    · by_cases h2 : s = bytes "false"
      · subst h2
        cases opens <;>
          simp [classify, _write_state, World.emit, hs, ht, chunk0, hne.symm]
      · simp [classify, h1, h2, hs, ht, chunk0]

theorem classify_idem (t : Option (List Byte)) (opens : Bool) (st : Option (List Byte)) :
    classify t opens (classify t opens st) = classify t opens st := by
  unfold classify
  split
  · split <;> rfl
  · split
    · split <;> rfl
    · rfl

/-- C1: for every prior heater-state file and every result of the state request, with `t`
the string that `_send_request` returns: if `t` is `"true"` and the file can be opened,
`_handle_state_get` returns and the file holds exactly `"ON"`; if `t` is `"false"`, exactly
`"OFF"`; for every other result (the empty string, `"error"`, any other string, or no
string at all) the file keeps its prior content. -/
theorem handle_state_get_status (w : World) (g : Transfer) (opens : Bool) :
    (cstr (_send_request STATE_URL none GET false g w).1 = some (bytes "true") → opens = true →
      (_handle_state_get g opens w).1 = .ret () ∧
      (_handle_state_get g opens w).2.status = some (bytes "ON")) ∧
    (cstr (_send_request STATE_URL none GET false g w).1 = some (bytes "false") → opens = true →
      (_handle_state_get g opens w).1 = .ret () ∧
      (_handle_state_get g opens w).2.status = some (bytes "OFF")) ∧
    (cstr (_send_request STATE_URL none GET false g w).1 ≠ some (bytes "true") →
      cstr (_send_request STATE_URL none GET false g w).1 ≠ some (bytes "false") →
      (_handle_state_get g opens w).2.status = w.status) := by
  obtain ⟨hs, -, -, -, hret⟩ := handle_state_get_spec g opens w
  have hne : bytes "false" ≠ bytes "true" := by decide
  refine ⟨?_, ?_, ?_⟩
  · intro ht ho
    refine ⟨hret (by rw [ht]; simp), ?_⟩
    rw [hs, ht, ho]
    simp [classify]
  · intro ht ho
    refine ⟨hret (by rw [ht]; simp), ?_⟩
    rw [hs, ht, ho]
    simp [classify, hne]
  · intro h1 h2
    rw [hs]
    simp [classify, h1, h2]

/-- Instance of `handle_state_get_status`: the answer `"true"` turns the file from `"OFF"`
to `"ON"`. -/
theorem handle_state_get_status_witness :
    (_handle_state_get (goodTransfer [bytes "true"]) true sampleWorld).1 = .ret () ∧
    (_handle_state_get (goodTransfer [bytes "true"]) true sampleWorld).2.status
      = some (bytes "ON") :=
  (handle_state_get_status sampleWorld (goodTransfer [bytes "true"]) true).1 (by decide) rfl

/-- C3 (what the code does): when the client handle cannot be created or the transfer of
the state request fails, `_send_request` returns `NULL` or `REQ_ERR` converted to a pointer,
the `strcmp` of `_handle_state_get` reads through it and the process faults; the
heater-state file keeps its content. -/
theorem handle_state_get_transport_failure (w : World) (g : Transfer) (opens : Bool)
    (h : g.init = false ∨ (curl_easy_perform true g w.chunk).1 = false) :
    (_handle_state_get g opens w).1 = .fault ∧
    (_handle_state_get g opens w).2.status = w.status := by
  rcases h with h | h
  · simp [_handle_state_get, _send_request, h, strcmp0, cstr]
  · by_cases hi : g.init = true
    · have hg : (GET == GET) = true := by decide
      simp [_handle_state_get, _send_request, hi, hg, h, strcmp0, cstr, World.emit]
    · simp [_handle_state_get, _send_request, hi, strcmp0, cstr]

/-- Instance of `handle_state_get_transport_failure`: a transfer that ends with an error. -/
theorem handle_state_get_transport_failure_witness :
    (_handle_state_get { init := true, data := [], ok := false } true sampleWorld).1 = .fault ∧
    (_handle_state_get { init := true, data := [], ok := false } true sampleWorld).2.status
      = sampleWorld.status :=
  handle_state_get_transport_failure sampleWorld { init := true, data := [], ok := false } true
    (Or.inr (by decide))

/-! ## The sync loop -/

theorem seq_ret {α β : Type} (r : Ctl α × World) (k : α → World → Ctl β × World) (v : α)
    (h : r.1 = .ret v) : Ctl.seq r k = k v r.2 := by
  simp [Ctl.seq, h]

theorem seq_fault {α β : Type} (r : Ctl α × World) (k : α → World → Ctl β × World)
    (h : r.1 = .fault) : Ctl.seq r k = (.fault, r.2) := by
  simp [Ctl.seq, h]

/-- One pass of the loop either completes, with the accumulator reset and the
heater-state file set by the classification of the fetched string, or faults,
with the heater-state file as it was. -/
theorem iteration_spec (e : Iter) (w : World) (hw : w.chunk = chunk0) :
    ((iteration e w).1 = .ret () ∧ (iteration e w).2.chunk = chunk0 ∧
      (iteration e w).2.temp = w.temp ∧
      (iteration e w).2.status =
        classify (cstr (_send_request STATE_URL none GET false e.get blankWorld).1)
          e.opens w.status) ∨
    ((iteration e w).1 = .fault ∧ (iteration e w).2.status = w.status) := by
  obtain ⟨hrs, hrt, hrc⟩ := read_temp_frame e.alloc e.post w
  rcases read_temp_ctl e.alloc e.post w with hr | hr
  · obtain ⟨hs, ht, hctl, hchunk, -⟩ :=
      handle_state_get_spec e.get e.opens (_read_temp e.alloc e.post w).2
    have hp := send_request_ptr_indep STATE_URL none GET false e.get
      (_read_temp e.alloc e.post w).2 blankWorld (by rw [hrc, hw]; rfl)
    rw [hp, hrs] at hs
    rcases hctl with hg | hg
    · left
      have : iteration e w =
          (.ret (), (_handle_state_get e.get e.opens (_read_temp e.alloc e.post w).2).2.emit
            (.sleep DELAY)) := by
        unfold iteration
        rw [seq_ret _ _ () hr, seq_ret _ _ () hg]
      rw [this]
      exact ⟨rfl, hchunk hg, by simpa [World.emit] using ht.trans hrt,
        by simpa [World.emit] using hs⟩
    · right
      have : iteration e w =
          (.fault, (_handle_state_get e.get e.opens (_read_temp e.alloc e.post w).2).2) := by
        unfold iteration
        rw [seq_ret _ _ () hr, seq_fault _ _ hg]
      rw [this]
      refine ⟨rfl, ?_⟩
      obtain ⟨-, -, -, -, hne⟩ :=
        handle_state_get_spec e.get e.opens (_read_temp e.alloc e.post w).2
      have hnone : cstr (_send_request STATE_URL none GET false e.get blankWorld).1 = none := by
        by_contra hcon
        rw [← hp] at hcon
        rw [hne hcon] at hg
        cases hg
      show (_handle_state_get e.get e.opens (_read_temp e.alloc e.post w).2).2.status = w.status
      rw [hs, hnone]
      simp [classify]
  · right
    have : iteration e w = (.fault, (_read_temp e.alloc e.post w).2) := by
      unfold iteration
      rw [seq_fault _ _ hr]
    rw [this]
    exact ⟨rfl, hrs⟩

theorem sync_loop_single (e : Iter) (w : World) (hw : w.chunk = chunk0) :
    (sync_loop [e] w).2.status = (iteration e w).2.status := by
  rcases iteration_spec e w hw with ⟨h, -⟩ | ⟨h, -⟩
  · simp [sync_loop, seq_ret _ _ () h]
  · simp [sync_loop, seq_fault _ _ h]

/-- Once the heater-state file is a fixed point of the classification, further passes
with the same state response leave it alone. -/
theorem sync_loop_fixed (g : Transfer) (o : Bool) (rest : List Iter) (w : World)
    (hw : w.chunk = chunk0) (hall : ∀ x ∈ rest, x.get = g ∧ x.opens = o)
    (hfix : classify (cstr (_send_request STATE_URL none GET false g blankWorld).1) o w.status
      = w.status) :
    (sync_loop rest w).2.status = w.status := by
  induction rest generalizing w with
  | nil => rfl
  | cons e rest ih =>
    obtain ⟨hg, ho⟩ := hall e (List.mem_cons_self _ _)
    rcases iteration_spec e w hw with ⟨h, hc, -, hs⟩ | ⟨h, hs⟩
    · have hstep : sync_loop (e :: rest) w = sync_loop rest (iteration e w).2 := by
        conv_lhs => unfold sync_loop
        rw [seq_ret _ _ () h]
      rw [hg, ho, hfix] at hs
      rw [hstep, ih _ hc (fun x hx => hall x (List.mem_cons_of_mem _ hx)) (by rw [hs, hfix]), hs]
    · have hstep : sync_loop (e :: rest) w = (.fault, (iteration e w).2) := by
        conv_lhs => unfold sync_loop
        rw [seq_fault _ _ h]
      rw [hstep]
      exact hs

theorem sync_loop_cons_status (w : World) (g : Transfer) (o : Bool) (e : Iter) (rest : List Iter)
    (hw : w.chunk = chunk0) (he : e.get = g ∧ e.opens = o)
    (hrest : ∀ x ∈ rest, x.get = g ∧ x.opens = o) :
    (sync_loop (e :: rest) w).2.status = (sync_loop [e] w).2.status := by
  rw [sync_loop_single e w hw]
  rcases iteration_spec e w hw with ⟨h, hc, -, hs⟩ | ⟨h, -⟩
  · have hstep : sync_loop (e :: rest) w = sync_loop rest (iteration e w).2 := by
      conv_lhs => unfold sync_loop
      rw [seq_ret _ _ () h]
    rw [he.1, he.2] at hs
    rw [hstep, sync_loop_fixed g o rest _ hc hrest (by rw [hs, classify_idem])]
  · have hstep : sync_loop (e :: rest) w = (.fault, (iteration e w).2) := by
      conv_lhs => unfold sync_loop
      rw [seq_fault _ _ h]
    rw [hstep]

theorem sync_loop_running_chunk (es : List Iter) (w : World) (hw : w.chunk = chunk0)
    (hrun : (sync_loop es w).1 = .running) : (sync_loop es w).2.chunk = chunk0 := by
  induction es generalizing w with
  | nil => exact hw
  | cons e rest ih =>
    rcases iteration_spec e w hw with ⟨h, hc, -, -⟩ | ⟨h, -⟩
    · have hstep : sync_loop (e :: rest) w = sync_loop rest (iteration e w).2 := by
        conv_lhs => unfold sync_loop
        rw [seq_ret _ _ () h]
      rw [hstep] at hrun ⊢
      exact ih _ hc hrun
    · have hstep : sync_loop (e :: rest) w = (.fault, (iteration e w).2) := by
        conv_lhs => unfold sync_loop
        rw [seq_fault _ _ h]
      rw [hstep] at hrun
      cases hrun

/-- C9: starting from any heater-state file, with the accumulator in its initial state,
after `N ≥ 1` consecutive passes of the loop that all get the same answer to the state
request (and the same answer when the file is opened) the heater-state file holds what it
holds after the first of them. -/
theorem sync_loop_idempotent (w : World) (g : Transfer) (o : Bool) (es : List Iter) (N : Nat)
    (hN : 1 ≤ N) (hlen : es.length = N) (hw : w.chunk = chunk0)
    (hall : ∀ x ∈ es, x.get = g ∧ x.opens = o) :
    (sync_loop es w).2.status = (sync_loop (es.take 1) w).2.status := by
  cases es with
  | nil =>
    simp only [List.length_nil] at hlen
    omega
  | cons e rest =>
    exact sync_loop_cons_status w g o e rest hw (hall e (List.mem_cons_self _ _))
      (fun x hx => hall x (List.mem_cons_of_mem _ hx))

/-- Instance of `sync_loop_idempotent`: three identical passes against one. -/
theorem sync_loop_idempotent_witness :
    (sync_loop (List.replicate 3 sampleIter) sampleWorld).2.status =
      (sync_loop ((List.replicate 3 sampleIter).take 1) sampleWorld).2.status :=
  sync_loop_idempotent sampleWorld sampleIter.get sampleIter.opens (List.replicate 3 sampleIter) 3
    (by decide) (by decide) rfl (by decide)

/-- What `_handle_state_get` does once the state request has returned a pointer to the
string `s`: the comparison with `"true"`, then with `"false"`, the write and the reset. -/
theorem handle_state_get_of_string (g : Transfer) (opens : Bool) (w wG : World) (p : CharPtr)
    (s : List Byte) (hreq : _send_request STATE_URL none GET false g w = (p, wG))
    (hs : cstr p = some s) :
    (s = bytes "true" → _handle_state_get g opens w = (.ret (),
      { wG with
        status := if opens then some (bytes "ON") else wG.status
        chunk := chunk0
        trace := wG.trace ++ [.syslog .LOG_INFO "turning on heater", .fopen STATE_FILENAME "w"]
          ++ (if opens then [] else [.printf "unable to open file for writing\n"]) })) ∧
    (s = bytes "false" → _handle_state_get g opens w = (.ret (),
      { wG with
        status := if opens then some (bytes "OFF") else wG.status
        chunk := chunk0
        trace := wG.trace ++ [.syslog .LOG_INFO "turning off heater", .fopen STATE_FILENAME "w"]
          ++ (if opens then [] else [.printf "unable to open file for writing\n"]) })) ∧
    (s ≠ bytes "true" → s ≠ bytes "false" →
      _handle_state_get g opens w = (.ret (), { wG with chunk := chunk0 })) := by
  have hne : bytes "true" ≠ bytes "false" := by decide
  refine ⟨?_, ?_, ?_⟩
  · intro h
    subst h
    cases opens <;>
      simp [_handle_state_get, hreq, strcmp0, hs, _write_state, World.emit, chunk0]
  · intro h
    subst h
    cases opens <;>
      simp [_handle_state_get, hreq, strcmp0, hs, _write_state, World.emit, chunk0, hne.symm]
  · intro h1 h2
    simp [_handle_state_get, hreq, strcmp0, hs, h1, h2, chunk0]

theorem handle_state_get_resets (g : Transfer) (opens : Bool) (w : World)
    (h : (_handle_state_get g opens w).1 = .ret ()) :
    (_handle_state_get g opens w).2.chunk = chunk0 :=
  (handle_state_get_spec g opens w).2.2.2.1 h

theorem stored_chunk0_cons (data : List (List Byte × Bool)) (h : data ≠ []) :
    stored chunk0 data =
      { response := some (received data ++ [0]), size := (received data).length } := by
  cases data with
  | nil => exact absurd rfl h
  | cons p rest => simp [stored, chunk0, curl_string.content]

/-- C10 (as amended): in every pass of the loop that is reached, the state request starts
from the empty accumulator.  When the transfer succeeds and delivers at least one piece,
`_send_request` performs the GET and returns the block holding exactly the received pieces
in arrival order followed by the terminating NUL, with their total length as recorded size;
the string `_handle_state_get` classifies is that concatenation up to its first zero byte
(all of it when it holds none), whatever earlier passes received: on `"true"` it logs and
writes `"ON"`, on `"false"` it logs and writes `"OFF"`, otherwise it writes nothing, and in
each case it returns with the accumulator reset to (`NULL`, 0).  From any world,
`_handle_state_get` has reset the accumulator whenever it returns, and each successful
`_write_fn` call appends its `size * nmemb` bytes, adds that count to the recorded size and
returns it. -/
theorem get_accumulator (w : World) (es : List Iter) (e : Iter) (w1 : World)
    (hw : w.chunk = chunk0) (hrun : (sync_loop es w).1 = .running)
    (hw1 : w1 = (_read_temp e.alloc e.post (sync_loop es w).2).2) :
    w1.chunk = chunk0 ∧
    (e.get.init = true → e.get.ok = true → (∀ p ∈ e.get.data, p.2 = true) →
      (received e.get.data).length + 1 < SIZE_MOD → e.get.data ≠ [] →
      _send_request STATE_URL none GET false e.get w1 =
        (.block (received e.get.data ++ [0]),
         { w1 with
            chunk := { response := some (received e.get.data ++ [0]),
                       size := (received e.get.data).length }
            trace := w1.trace ++ [.fopen CURL_OUTPUT "wb", .perform STATE_URL GET none true] }) ∧
      cstr (.block (received e.get.data ++ [0])) =
        some ((received e.get.data).takeWhile (fun b => b ≠ 0)) ∧
      ((0 : Byte) ∉ received e.get.data →
        cstr (.block (received e.get.data ++ [0])) = some (received e.get.data)) ∧
      ((received e.get.data).takeWhile (fun b => b ≠ 0) = bytes "true" →
        _handle_state_get e.get e.opens w1 = (.ret (),
          { w1 with
            status := if e.opens then some (bytes "ON") else w1.status
            chunk := chunk0
            trace := w1.trace ++
              [.fopen CURL_OUTPUT "wb", .perform STATE_URL GET none true,
               .syslog .LOG_INFO "turning on heater", .fopen STATE_FILENAME "w"] ++
              (if e.opens then [] else [.printf "unable to open file for writing\n"]) })) ∧
      ((received e.get.data).takeWhile (fun b => b ≠ 0) = bytes "false" →
        _handle_state_get e.get e.opens w1 = (.ret (),
          { w1 with
            status := if e.opens then some (bytes "OFF") else w1.status
            chunk := chunk0
            trace := w1.trace ++
              [.fopen CURL_OUTPUT "wb", .perform STATE_URL GET none true,
               .syslog .LOG_INFO "turning off heater", .fopen STATE_FILENAME "w"] ++
              (if e.opens then [] else [.printf "unable to open file for writing\n"]) })) ∧
      ((received e.get.data).takeWhile (fun b => b ≠ 0) ≠ bytes "true" →
        (received e.get.data).takeWhile (fun b => b ≠ 0) ≠ bytes "false" →
        _handle_state_get e.get e.opens w1 = (.ret (),
          { w1 with
            chunk := chunk0
            trace := w1.trace ++
              [.fopen CURL_OUTPUT "wb", .perform STATE_URL GET none true] }))) ∧
    (∀ (g : Transfer) (opens : Bool) (w' : World),
      (_handle_state_get g opens w').1 = .ret () →
      (_handle_state_get g opens w').2.chunk = chunk0) ∧
    (∀ (data : List Byte) (size nmemb : Nat) (mem : curl_string),
      mem.size + size * nmemb + 1 < SIZE_MOD → size * nmemb ≤ data.length →
      mem.size ≤ (mem.response.getD []).length →
      _write_fn true data size nmemb mem =
        (size * nmemb,
          { response := some (mem.content ++ data.take (size * nmemb) ++ [0]),
            size := mem.size + size * nmemb })) := by
  have hc : w1.chunk = chunk0 := by
    rw [hw1]
    exact (read_temp_frame _ _ _).2.2.trans (sync_loop_running_chunk es w hw hrun)
  refine ⟨hc, ?_, fun g opens w' h => handle_state_get_resets g opens w' h,
    fun data size nmemb mem h1 h2 h3 => write_fn_appends data size nmemb mem h1 h2 h3⟩
  intro hinit hok hre hfit hne
  have hsend := send_request_get_ok e.get w1 hc hinit hok hre hfit
  rw [stored_chunk0_cons _ hne] at hsend
  have hcstr := cstr_block_terminated (received e.get.data)
  obtain ⟨ht, hf, ho⟩ := handle_state_get_of_string e.get e.opens w1 _ _ _ hsend hcstr
  refine ⟨hsend, hcstr, ?_, ?_, ?_, ?_⟩
  · intro h0
    rw [hcstr, takeWhile_no_nul _ h0]
  · intro h
    rw [ht h]
    simp
  · intro h
    rw [hf h]
    simp
  · intro h1 h2
    rw [ho h1 h2]

/-- Instance of `get_accumulator`: after a pass that fetched `"false"`, the pieces `"tr"` and
`"ue"` are classified as `"true"`: the heater is turned on and nothing is left of `"false"`. -/
theorem get_accumulator_witness :
    _handle_state_get sampleIter.get sampleIter.opens
        (_read_temp sampleIter.alloc sampleIter.post (sync_loop [falseIter] sampleWorld).2).2 =
      (.ret (),
        { (_read_temp sampleIter.alloc sampleIter.post (sync_loop [falseIter] sampleWorld).2).2 with
          status := some (bytes "ON")
          chunk := chunk0
          trace :=
            (_read_temp sampleIter.alloc sampleIter.post
              (sync_loop [falseIter] sampleWorld).2).2.trace ++
            [.fopen CURL_OUTPUT "wb", .perform STATE_URL GET none true,
             .syslog .LOG_INFO "turning on heater", .fopen STATE_FILENAME "w"] }) :=
  ((get_accumulator sampleWorld [falseIter] sampleIter _ rfl (by decide) rfl).2.1
    rfl rfl (by decide) (by decide) (by decide)).2.2.2.1 (by decide) |>.trans (by decide)

/-- C10 (counterexample): the state request delivers the pieces `"true"` and `[0, 120]`.
Their concatenation has six bytes and is not `"true"`, yet the string that is classified is
`"true"`: `_handle_state_get` turns the heater-state file from `"OFF"` to `"ON"`. -/
theorem classified_string_stops_at_nul :
    received nulTransfer.data = bytes "true" ++ [0, 120] ∧
    received nulTransfer.data ≠ bytes "true" ∧
    cstr (_send_request STATE_URL none GET false nulTransfer sampleWorld).1
      = some (bytes "true") ∧
    cstr (_send_request STATE_URL none GET false nulTransfer sampleWorld).1
      ≠ some (received nulTransfer.data) ∧
    sampleWorld.status = some (bytes "OFF") ∧
    (_handle_state_get nulTransfer true sampleWorld).2.status = some (bytes "ON") := by
  decide

/-! ## The signal handler -/

/-- C8: for every signal number, `_signal_handler` on the shutdown signal `SIGTERM` logs the
shutdown message, closes the log and ends the process with `OK`; on the reload signal
`SIGHUP` it returns with the world untouched (nothing logged); on any other number it
returns after logging the "unspecified" message and nothing else changes. -/
theorem signal_handler_cases (signal : Int) (w : World) :
    (signal = SIGTERM → _signal_handler signal w =
      (.exit OK, (w.emit (.syslog .LOG_INFO "SIGTERM, program shutting down")).emit .closelog)) ∧
    (signal = SIGHUP → _signal_handler signal w = (.ret (), w)) ∧
    (signal ≠ SIGTERM → signal ≠ SIGHUP → _signal_handler signal w =
      (.ret (), w.emit (.syslog .LOG_INFO "unspecified signal handler type"))) := by
  refine ⟨?_, ?_, ?_⟩
  · intro h
    subst h
    rfl
  · intro h
    subst h
    rfl
  · intro h1 h2
    simp [_signal_handler, h1, h2]

/-- Instance of `signal_handler_cases`: the number 15 is neither of the two constants. -/
theorem signal_handler_cases_witness :
    _signal_handler 15 sampleWorld =
      (.ret (), sampleWorld.emit (.syslog .LOG_INFO "unspecified signal handler type")) :=
  (signal_handler_cases 15 sampleWorld).2.2 (by decide) (by decide)

/-! ## Start-up -/

/-- C6 (evaluation of the code at the failing input): when `fork` returns 0, `setsid` fails
with -1 and `chdir` succeeds, `_daemonize` does not return `ERR_SETSID`: the test
`setsid() < -1` is false, the standard streams are closed, both signal handlers are
installed and the result is `OK`. -/
theorem daemonize_setsid_failure_undetected (w : World) :
    _daemonize { fork := 0, setsid := -1, chdir := 0 } w =
      (.ret OK,
        { w with trace := w.trace ++
            [.openlog DAEMON_NAME, .syslog .LOG_INFO "Staring IoT client final daemon", .fork,
             .setsid, .close 0, .close 1, .close 2, .umask 0o644, .chdir "/",
             .signal SIGTERM, .signal SIGHUP] }) := by
  simp [_daemonize, World.emit]

theorem daemonize_ctl (s : Startup) (w : World) (hf : s.fork ≤ 0) :
    ∃ d tr, _daemonize s w = (.ret d, { w with trace := w.trace ++ tr }) ∧
      ∀ e ∈ tr, e.isNetwork = false := by
  unfold _daemonize
  by_cases h1 : s.fork < 0
  · simp only [h1, if_true, World.emit, List.append_assoc]
    exact ⟨_, _, rfl, by simp [Event.isNetwork]⟩
  · have h2 : ¬ s.fork > 0 := by omega
    by_cases h3 : s.setsid < -1
    · simp only [h1, h2, h3, if_true, if_false, World.emit, List.append_assoc]
      exact ⟨_, _, rfl, by simp [Event.isNetwork]⟩
    · by_cases h4 : s.chdir < 0
      · simp only [h1, h2, h3, h4, if_true, if_false, World.emit, List.append_assoc]
        exact ⟨_, _, rfl, by simp [Event.isNetwork]⟩
      · simp only [h1, h2, h3, h4, if_true, if_false, World.emit, List.append_assoc]
        exact ⟨_, _, rfl, by simp [Event.isNetwork]⟩

theorem handle_work_missing (iters : List Iter) (w : World) (h : w.temp = none ∨ w.status = none) :
    ∃ tr, _handle_work iters w = (.ret NO_FILE, { w with trace := w.trace ++ tr }) ∧
      ∀ e ∈ tr, e.isNetwork = false := by
  unfold _handle_work _file_exists
  have hT : TEMP_FILENAME ≠ STATE_FILENAME := by decide
  cases ht : w.temp with
  | none =>
    simp only [World.file, World.emit, if_true, ht, Option.isSome_none, Bool.not_false,
      List.append_assoc]
    exact ⟨_, rfl, by simp [Event.isNetwork]⟩
  | some t =>
    have hs : w.status = none := by
      rcases h with h | h
      · simp [ht] at h
      · exact h
    simp only [World.file, World.emit, if_true, ht, hs, Option.isSome_none, Option.isSome_some,
      Bool.not_false, Bool.not_true, List.append_assoc, if_false, hT.symm, Bool.false_eq_true]
    exact ⟨_, rfl, by simp [Event.isNetwork]⟩

/-- C4 (what the code does): when the temperature file or the heater-state file is absent
and the process is not the parent of the fork, `_handle_work` returns `NO_FILE` and no
network request is made, but `main` drops that result and the process ends with status
`WRONG_EXIT` (6), not `NO_FILE` (19). -/
theorem main_missing_file (a : List Byte) (s : Startup) (iters : List Iter) (w : World)
    (hf : s.fork ≤ 0) (h : w.temp = none ∨ w.status = none) :
    (main [a] s iters w).1 = .ret WRONG_EXIT ∧
    (_handle_work iters w).1 = .ret NO_FILE ∧
    ∀ e ∈ (main [a] s iters w).2.trace.drop w.trace.length, e.isNetwork = false := by
  obtain ⟨d, tr1, hd, hn1⟩ :=
    daemonize_ctl s (w.emit (.syslog .LOG_INFO "Running the daemon\n")) hf
  obtain ⟨tr2, hw, hn2⟩ := handle_work_missing iters
    { w.emit (.syslog .LOG_INFO "Running the daemon\n") with
      trace := (w.emit (.syslog .LOG_INFO "Running the daemon\n")).trace ++ tr1 }
    (by simpa [World.emit] using h)
  obtain ⟨tr3, hw3, -⟩ := handle_work_missing iters w h
  have hm : main [a] s iters w = (.ret WRONG_EXIT,
      { w with trace :=
          w.trace ++ (Event.syslog .LOG_INFO "Running the daemon\n" :: (tr1 ++ tr2)) }) := by
    simp only [main, List.length_singleton, if_true, Ctl.seq, hd, hw]
    simp [World.emit]
  refine ⟨by rw [hm], by rw [hw3], ?_⟩
  intro e he
  rw [hm] at he
  simp only [List.drop_left, List.mem_cons, List.mem_append] at he
  rcases he with rfl | he | he
  · rfl
  · exact hn1 e he
  · exact hn2 e he

/-- Instance of `main_missing_file`: the temperature file is absent in the daemon child. -/
theorem main_missing_file_witness :
    (main [bytes "thermostat_reader"] { fork := 0, setsid := 7, chdir := 0 } []
      { sampleWorld with temp := none }).1 = .ret WRONG_EXIT ∧
    (_handle_work [] { sampleWorld with temp := none }).1 = .ret NO_FILE ∧
    ∀ e ∈ (main [bytes "thermostat_reader"] { fork := 0, setsid := 7, chdir := 0 } []
      { sampleWorld with temp := none }).2.trace.drop
        ({ sampleWorld with temp := none } : World).trace.length, e.isNetwork = false :=
  main_missing_file (bytes "thermostat_reader") { fork := 0, setsid := 7, chdir := 0 } []
    { sampleWorld with temp := none } (by decide) (Or.inl rfl)

/-- C5 (evaluation of the code at the failing input): when `fork` fails, `_daemonize`
returns `ERR_FORK`, yet `main` goes on to `_handle_work`: the files are checked, the
temperature is read and posted, the state is fetched and written, and the process is still
in the loop instead of having ended with status `ERR_FORK`. -/
theorem main_enters_loop_after_fork_failure :
    (_daemonize { fork := -1, setsid := 0, chdir := 0 }
      (sampleWorld.emit (.syslog .LOG_INFO "Running the daemon\n"))).1 = .ret ERR_FORK ∧
    main [bytes "thermostat_reader"] { fork := -1, setsid := 0, chdir := 0 } [sampleIter]
      sampleWorld =
    (.running, { sampleWorld with
      status := some (bytes "ON")
      trace := [.syslog .LOG_INFO "Running the daemon\n", .openlog DAEMON_NAME,
        .syslog .LOG_INFO "Staring IoT client final daemon", .fork,
        .syslog_strerror .LOG_ERR (-1),
        .stat TEMP_FILENAME, .stat STATE_FILENAME,
        .fopen TEMP_FILENAME "r", .fopen CURL_OUTPUT "wb",
        .perform UPDATE "POST" (some (bytes "21.5\n")) false,
        .fopen CURL_OUTPUT "wb", .perform STATE_URL GET none true,
        .syslog .LOG_INFO "turning on heater", .fopen STATE_FILENAME "w", .sleep DELAY] }) := by
  decide

/-! ## The command line -/

theorem foldl_help (args : List (List Byte)) (w : World) :
    args.foldl (fun w a => if isHelpArg a then _help w else w) w =
      { w with trace := w.trace ++ helpOutput args } := by
  induction args generalizing w with
  | nil => simp [helpOutput]
  | cons a rest ih =>
    rw [List.foldl_cons, ih]
    by_cases ha : isHelpArg a = true
    · simp [ha, helpOutput, _help, World.emit]
    · simp [ha, helpOutput]

theorem helpOutput_mem (args : List (List Byte)) (e : Event) (he : e ∈ helpOutput args) :
    (e = .printf usage1 ∨ e = .printf usage2) ∧ ∃ a ∈ args, isHelpArg a = true := by
  induction args with
  | nil => simp [helpOutput] at he
  | cons a rest ih =>
    by_cases ha : isHelpArg a = true
    · simp only [helpOutput, ha, if_true, List.mem_append, List.mem_cons, List.mem_singleton,
        List.not_mem_nil, or_false] at he
      rcases he with (h | h) | h
      · exact ⟨Or.inl h, a, List.mem_cons_self _ _, ha⟩
      · exact ⟨Or.inr h, a, List.mem_cons_self _ _, ha⟩
      · obtain ⟨h1, b, hb, hb2⟩ := ih h
        exact ⟨h1, b, List.mem_cons_of_mem _ hb, hb2⟩
    · simp only [helpOutput, ha, List.nil_append, Bool.false_eq_true, if_false] at he
      obtain ⟨h1, b, hb, hb2⟩ := ih he
      exact ⟨h1, b, List.mem_cons_of_mem _ hb, hb2⟩

theorem helpOutput_of_mem (args : List (List Byte)) (a : List Byte) (ha : a ∈ args)
    (hh : isHelpArg a = true) :
    Event.printf usage1 ∈ helpOutput args ∧ Event.printf usage2 ∈ helpOutput args := by
  induction args with
  | nil => simp at ha
  | cons b rest ih =>
    rcases List.mem_cons.mp ha with rfl | h
    · simp [helpOutput, hh]
    · have := ih h
      simp [helpOutput, this]

/-- C7: for every argument vector with at least one argument after the program name,
`main` ends with status `WRONG_EXIT`, leaves both files and the accumulator as they were,
performs no fork, session, signal, file or network action, and prints the usage text
exactly when some argument equals `-h` or `--help`. -/
theorem main_with_arguments (argv : List (List Byte)) (s : Startup) (iters : List Iter)
    (w : World) (h : 2 ≤ argv.length) :
    (main argv s iters w).1 = .ret WRONG_EXIT ∧
    (main argv s iters w).2 =
      { w with trace :=
          w.trace ++ Event.syslog .LOG_INFO "Checking arguments\n" :: helpOutput argv.tail } ∧
    ((Event.printf usage1 ∈ helpOutput argv.tail ∧ Event.printf usage2 ∈ helpOutput argv.tail) ↔
      ∃ a ∈ argv.tail, a = bytes "-h" ∨ a = bytes "--help") ∧
    ((¬ ∃ a ∈ argv.tail, a = bytes "-h" ∨ a = bytes "--help") → helpOutput argv.tail = []) ∧
    (∀ e ∈ (main argv s iters w).2.trace.drop w.trace.length,
      e.isDaemon = false ∧ e.isFile = false ∧ e.isNetwork = false) := by
  have h1 : ¬ argv.length = 1 := by omega
  have h2 : argv.length > 1 := by omega
  have hm : main argv s iters w = (.ret WRONG_EXIT,
      { w with trace :=
          w.trace ++ Event.syslog .LOG_INFO "Checking arguments\n" :: helpOutput argv.tail }) := by
    simp only [main, h1, h2, if_true, if_false, foldl_help]
    simp [World.emit]
  have hiff : ∀ a : List Byte, isHelpArg a = true ↔ (a = bytes "-h" ∨ a = bytes "--help") := by
    intro a
    simp [isHelpArg]
  refine ⟨by rw [hm], by rw [hm], ⟨?_, ?_⟩, ?_, ?_⟩
  · rintro ⟨hu, -⟩
    obtain ⟨-, a, ha, hh⟩ := helpOutput_mem _ _ hu
    exact ⟨a, ha, (hiff a).mp hh⟩
  · rintro ⟨a, ha, hh⟩
    exact helpOutput_of_mem _ a ha ((hiff a).mpr hh)
  · intro hno
    cases hout : helpOutput argv.tail with
    | nil => rfl
    | cons e rest =>
      exfalso
      have he : e ∈ helpOutput argv.tail := by rw [hout]; exact List.mem_cons_self _ _
      obtain ⟨-, a, ha, hh⟩ := helpOutput_mem _ _ he
      exact hno ⟨a, ha, (hiff a).mp hh⟩
  · intro e he
    rw [hm] at he
    simp only [List.drop_left, List.mem_cons] at he
    rcases he with rfl | he
    · exact ⟨rfl, rfl, rfl⟩
    · rcases (helpOutput_mem _ _ he).1 with rfl | rfl
      · exact ⟨rfl, rfl, rfl⟩
      · exact ⟨rfl, rfl, rfl⟩

/-- Instance of `main_with_arguments`: the arguments `-v --help`. -/
theorem main_with_arguments_witness :
    (main [bytes "thermostat_reader", bytes "-v", bytes "--help"]
      { fork := 0, setsid := 7, chdir := 0 } [sampleIter] sampleWorld) =
    (.ret WRONG_EXIT, { sampleWorld with trace :=
      [.syslog .LOG_INFO "Checking arguments\n", .printf usage1, .printf usage2] }) := by
  have h := main_with_arguments [bytes "thermostat_reader", bytes "-v", bytes "--help"]
    { fork := 0, setsid := 7, chdir := 0 } [sampleIter] sampleWorld (by decide)
  exact Prod.ext h.1 (h.2.1.trans (by decide))

end Thermostat
